import Mathlib

/-!
Shallow embedding of `src/infrastructure/modules/secrets/rotation_lambda.py`:
an AWS Secrets Manager rotation Lambda implementing the four-step rotation
protocol (createSecret, setSecret, testSecret, finishSecret).

The secret store (AWS Secrets Manager) is the external collaborator: we model
the state of the one secret identified by `secret_arn` as a list of versions,
each carrying a version id, a set of staging labels (as a list of strings) and
a JSON payload.  The store operations (`get_secret_value`, `put_secret_value`,
`describe_secret`, `update_secret_version_stage`) are modelled from the spec's
store contract (section 6) together with the AWS API input shapes; `json.loads`
and `json.dumps` round-trip, so payloads are stored as JSON values directly.

Python exceptions become an error type `PyErr`; each step handler is a function
`... -> Except PyErr Unit × Store` returning the outcome together with the
store state after the call (errors are raised by the store client before any
partial write, so a failing call leaves the store as it was).
-/

set_option autoImplicit false
set_option linter.unusedVariables false

/-- A JSON value as produced by `json.loads`: an object (Python dict, an
ordered association list with unique keys), a number, or a string. -/
inductive JVal where
  | obj : List (String × JVal) → JVal
  | num : Int → JVal
  | str : String → JVal

/-- One version of the secret held by the store: its version id, the staging
labels attached to it, and the payload stored as its secret string. -/
structure Version where
  versionId : String
  stages : List String
  secretString : JVal

/-- The store state for the one secret the Lambda rotates: the versions in the
iteration order of `DescribeSecret`'s VersionIdsToStages mapping. -/
abbrev Store := List Version

/-- Python exceptions observable from the Lambda: `botocore` ClientError
(identified by its error code), `botocore` ParamValidationError (client-side
rejection of a parameter not in the API's input shape), Python ValueError and
Python AttributeError. -/
inductive PyErr where
  | clientError : String → PyErr
  | paramValidationError : String → PyErr
  | valueError : String → PyErr
  | attributeError : String → PyErr
  deriving DecidableEq

/-- Membership of a staging label in a version's label list
(Python: `'AWSCURRENT' in stages`). -/
def hasStage : List String → String → Bool
  | [], _ => false
  | x :: xs, st => if x = st then true else hasStage xs st

/-- Membership of a key in a JSON object (Python: `'apiVersion' in new_data`). -/
def hasKey : List (String × JVal) → String → Bool
  | [], _ => false
  | (k, _) :: rest, key => if k = key then true else hasKey rest key

/-- Python dict assignment `d[k] = v`: overwrite in place if the key exists,
otherwise append (Python 3.7+ dict ordering). -/
def setKey : List (String × JVal) → String → JVal → List (String × JVal)
  | [], k, v => [(k, v)]
  | (k', v') :: rest, k, v =>
      if k' = k then (k, v) :: rest else (k', v') :: setKey rest k v

/-- Does some version in the store carry this version id? -/
def hasVersionId : Store → String → Bool
  | [], _ => false
  | v :: vs, t => if v.versionId = t then true else hasVersionId vs t

/-- First version carrying the given staging label, in store order. -/
def findByStage : Store → String → Option Version
  | [], _ => none
  | v :: vs, st => if hasStage v.stages st then some v else findByStage vs st

/-- First version with the given version id, in store order. -/
def findById : Store → String → Option Version
  | [], _ => none
  | v :: vs, t => if v.versionId = t then some v else findById vs t

/-- Remove a staging label from a label list (labels form a set in AWS, so
removal removes every occurrence). -/
def removeStage : List String → String → List String
  | [], _ => []
  | x :: xs, st => if x = st then removeStage xs st else x :: removeStage xs st

/-- Detach the AWSPENDING label from every version: `PutSecretValue` with
`VersionStages=['AWSPENDING']` moves the label from the version previously
holding it onto the newly created version. -/
def stripPending : Store → Store
  | [] => []
  | v :: vs => { v with stages := removeStage v.stages "AWSPENDING" } :: stripPending vs

/-- Number of versions carrying a staging label. -/
def countStage : Store → String → Nat
  | [], _ => 0
  | v :: vs, st => (if hasStage v.stages st then 1 else 0) + countStage vs st

/-- The store's mapping from version id to staging labels, as reported by
`DescribeSecret` (`VersionIdsToStages`). -/
def stageMap : Store → List (String × List String)
  | [] => []
  | v :: vs => (v.versionId, v.stages) :: stageMap vs

/-- Modelled from the spec's store contract: `GetSecretValue(secret_id, stage)`
returns the version carrying the staging label, and fails with
ResourceNotFoundException when no version carries it. -/
def get_secret_value_stage (s : Store) (stage : String) : Except PyErr Version :=
  match findByStage s stage with
  | some v => Except.ok v
  | none => Except.error (PyErr.clientError "ResourceNotFoundException")

/-- Modelled from the spec's store contract: `GetSecretValue` with both a
VersionId and a VersionStage returns the version with that id provided it
carries the label, and fails with ResourceNotFoundException otherwise. -/
def get_secret_value_id_stage (s : Store) (vid stage : String) : Except PyErr Version :=
  match findById s vid with
  | some v =>
      if hasStage v.stages stage then Except.ok v
      else Except.error (PyErr.clientError "ResourceNotFoundException")
  | none => Except.error (PyErr.clientError "ResourceNotFoundException")

/-- Modelled from the spec's store contract: `PutSecretValue(secret_id, token,
payload, stages=[PENDING])` fails with a distinguishable "resource exists"
condition when `token` already has an associated version, and otherwise creates
a new version whose id is the token, carrying the AWSPENDING label (moved from
any version previously holding it).  `fault` injects the contract's "generic
store error otherwise": when `fault = some code` the store fails the put with a
ClientError of that code. -/
def put_secret_value (fault : Option String) (s : Store) (token : String)
    (payload : JVal) : Except PyErr Store :=
  match fault with
  | some code => Except.error (PyErr.clientError code)
  | none =>
      if hasVersionId s token then
        Except.error (PyErr.clientError "ResourceExistsException")
      else
        Except.ok (stripPending s ++ [⟨token, ["AWSPENDING"], payload⟩])

/-- The keyword arguments `finish_secret` builds for
`update_secret_version_stage` (rotation_lambda.py lines 121-126). -/
structure UpdateStageParams where
  secretId : String
  versionStage : String
  moveToVersionId : Option String
  removeFromVersionId : Option String
  clientRequestToken : Option String

/-- Modelled from the spec's store contract (`UpdateVersionStage`: atomic move
of a staging label) together with botocore's client-side parameter validation:
the UpdateSecretVersionStage API's input shape has exactly the members
SecretId, VersionStage, MoveToVersionId and RemoveFromVersionId, and botocore
raises ParamValidationError for any other parameter before sending a request
(so the store is untouched).  `ClientRequestToken` is not a member of this
API's input shape. -/
def update_secret_version_stage (s : Store) (p : UpdateStageParams) :
    Except PyErr Store :=
  if p.clientRequestToken.isSome then
    Except.error (PyErr.paramValidationError "Unknown parameter in input: ClientRequestToken")
  else
    let s1 : Store :=
      match p.removeFromVersionId with
      | some f => s.map fun v =>
          if v.versionId = f then { v with stages := removeStage v.stages p.versionStage } else v
      | none => s
    match p.moveToVersionId with
    | some t =>
        if hasVersionId s1 t then
          Except.ok (s1.map fun v =>
            if v.versionId = t then { v with stages := v.stages ++ [p.versionStage] } else v)
        else Except.error (PyErr.clientError "ResourceNotFoundException")
    | none => Except.ok s1

/-- `create_secret`'s derivation of the new payload from the current one
(rotation_lambda.py lines 52-63): `json.loads`, `dict.copy`, then — only when
the key 'apiVersion' is present — set 'lastRotated' to `int(time.time())` and
'rotationId' to `token[:8]`.  A non-object payload has no `.copy` attribute, so
Python raises AttributeError there. -/
def deriveNewData (cur : JVal) (token : String) (now : Int) : Except PyErr JVal :=
  match cur with
  | JVal.obj fields =>
      if hasKey fields "apiVersion" then
        Except.ok (JVal.obj (setKey (setKey fields "lastRotated" (JVal.num now))
          "rotationId" (JVal.str (token.take 8))))
      else Except.ok (JVal.obj fields)
  | _ => Except.error (PyErr.attributeError "object has no attribute copy")

/-- `create_secret(secret_arn, token)` (rotation_lambda.py lines 47-79): fetch
the AWSCURRENT version, derive the new payload, put it as a new AWSPENDING
version keyed by `token`; a ResourceExistsException from the put is swallowed
(idempotent retry), every other error propagates.  `now` is `int(time.time())`
and `fault` is the put's injected store fault. -/
def create_secret (fault : Option String) (secret_arn token : String) (now : Int)
    (s : Store) : Except PyErr Unit × Store :=
  match get_secret_value_stage s "AWSCURRENT" with
  | Except.error e => (Except.error e, s)
  | Except.ok cur =>
      match deriveNewData cur.secretString token now with
      | Except.error e => (Except.error e, s)
      | Except.ok nd =>
          match put_secret_value fault s token nd with
          | Except.ok s' => (Except.ok (), s')
          | Except.error (PyErr.clientError code) =>
              if code = "ResourceExistsException" then (Except.ok (), s)
              else (Except.error (PyErr.clientError code), s)
          | Except.error e => (Except.error e, s)

/-- `set_secret(secret_arn, token)` (rotation_lambda.py lines 81-86): a
placeholder that only logs; no store operation at all. -/
def set_secret (secret_arn token : String) (s : Store) : Except PyErr Unit × Store :=
  (Except.ok (), s)

/-- The required-fields loop of `test_secret` (rotation_lambda.py lines
106-109): ValueError for the first required field missing from the payload. -/
def checkRequired : List String → List (String × JVal) → Except PyErr Unit
  | [], _ => Except.ok ()
  | f :: rest, fields =>
      if hasKey fields f then checkRequired rest fields
      else Except.error (PyErr.valueError
        ("Required field '" ++ f ++ "' missing from secret"))

/-- `required_fields = ['apiVersion']` (rotation_lambda.py line 106). -/
def required_fields : List String := ["apiVersion"]

/-- `test_secret(secret_arn, token)` (rotation_lambda.py lines 88-115): fetch
the version with VersionId `token` and stage AWSPENDING, ValueError if the
payload is not a JSON object or a required field is missing.  Only reads the
store; every outcome returns the store unchanged. -/
def test_secret (secret_arn token : String) (s : Store) : Except PyErr Unit × Store :=
  match get_secret_value_id_stage s token "AWSPENDING" with
  | Except.error e => (Except.error e, s)
  | Except.ok v =>
      match v.secretString with
      | JVal.obj fields => (checkRequired required_fields fields, s)
      | _ => (Except.error (PyErr.valueError "Secret data must be a JSON object"), s)

/-- `get_current_version_id(secret_arn)` (rotation_lambda.py lines 134-144):
describe the secret and return the first version id whose stages contain
AWSCURRENT; ValueError when none does. -/
def get_current_version_id (s : Store) : Except PyErr String :=
  match findByStage s "AWSCURRENT" with
  | some v => Except.ok v.versionId
  | none => Except.error (PyErr.valueError "No current version found")

/-- `finish_secret(secret_arn, token)` (rotation_lambda.py lines 117-132):
resolve the current version id, then call `update_secret_version_stage` with
keywords SecretId, VersionStage="AWSCURRENT", ClientRequestToken=token and
RemoveFromVersionId=current — exactly the keywords of the source call; note no
MoveToVersionId is supplied and ClientRequestToken is not in this API's input
shape. -/
def finish_secret (secret_arn token : String) (s : Store) : Except PyErr Unit × Store :=
  match get_current_version_id s with
  | Except.error e => (Except.error e, s)
  | Except.ok cur =>
      match update_secret_version_stage s
        ⟨secret_arn, "AWSCURRENT", none, some cur, some token⟩ with
      | Except.ok s' => (Except.ok (), s')
      | Except.error e => (Except.error e, s)

/-- The Lambda's success response `{"statusCode": 200, "body": json.dumps("Success")}`. -/
structure LambdaResp where
  statusCode : Nat
  body : String
  deriving DecidableEq

/-- `handler(event, context)` (rotation_lambda.py lines 14-45): dispatch on the
step name from the event; an unrecognised step raises
`ValueError(f"Invalid step: \x7bstep\x7d")` without invoking any step handler;
any handler error re-raises unchanged. -/
def handler (fault : Option String) (secret_arn token step : String) (now : Int)
    (s : Store) : Except PyErr LambdaResp × Store :=
  let out : Except PyErr Unit × Store :=
    if step = "createSecret" then create_secret fault secret_arn token now s
    else if step = "setSecret" then set_secret secret_arn token s
    else if step = "testSecret" then test_secret secret_arn token s
    else if step = "finishSecret" then finish_secret secret_arn token s
    else (Except.error (PyErr.valueError ("Invalid step: " ++ step)), s)
  match out with
  | (Except.ok _, s') => (Except.ok ⟨200, "\"Success\""⟩, s')
  | (Except.error e, s') => (Except.error e, s')

/-! ### Helper lemmas about the store model -/

theorem hasStage_removeStage_self (l : List String) (st : String) :
    hasStage (removeStage l st) st = false := by
  induction l with
  | nil => rfl
  | cons a as ih =>
      by_cases ha : a = st <;> simp [removeStage, ha, hasStage, ih]

theorem hasStage_removeStage_ne (l : List String) (st x : String) (h : x ≠ st) :
    hasStage (removeStage l st) x = hasStage l x := by
  induction l with
  | nil => rfl
  | cons a as ih =>
      by_cases ha : a = st
      · subst ha
        have hax : a ≠ x := fun hax => h hax.symm
        simp [removeStage, hasStage, hax, ih]
      · by_cases hax : a = x <;> simp [removeStage, ha, hasStage, hax, ih, h]

theorem findByStage_stripPending (s : Store) :
    findByStage (stripPending s) "AWSCURRENT"
      = Option.map (fun v => { v with stages := removeStage v.stages "AWSPENDING" })
          (findByStage s "AWSCURRENT") := by
  induction s with
  | nil => rfl
  | cons v vs ih =>
      simp only [stripPending, findByStage]
      rw [hasStage_removeStage_ne _ _ _ (by decide)]
      by_cases hc : hasStage v.stages "AWSCURRENT" <;> simp [hc, ih]

theorem findByStage_append_left (l1 l2 : Store) (st : String) (v : Version)
    (h : findByStage l1 st = some v) : findByStage (l1 ++ l2) st = some v := by
  induction l1 with
  | nil => exact absurd h (by simp [findByStage])
  | cons a as ih =>
      by_cases hc : hasStage a.stages st
      · simp only [findByStage, hc, if_pos] at h ⊢
        exact h
      · simp only [List.cons_append, findByStage, hc] at h ⊢
        simp only [if_neg, Bool.false_eq_true, reduceIte] at h ⊢
        exact ih h

theorem hasVersionId_stripPending (s : Store) (t : String) :
    hasVersionId (stripPending s) t = hasVersionId s t := by
  induction s with
  | nil => rfl
  | cons v vs ih => simp [stripPending, hasVersionId, ih]

theorem hasVersionId_append (l1 l2 : Store) (t : String) :
    hasVersionId (l1 ++ l2) t = (hasVersionId l1 t || hasVersionId l2 t) := by
  induction l1 with
  | nil => rfl
  | cons v vs ih =>
      by_cases h : v.versionId = t <;> simp [hasVersionId, h, ih]

theorem findById_append_right (l1 l2 : Store) (t : String)
    (h : hasVersionId l1 t = false) : findById (l1 ++ l2) t = findById l2 t := by
  induction l1 with
  | nil => rfl
  | cons v vs ih =>
      by_cases hv : v.versionId = t
      · simp [hasVersionId, hv] at h
      · simp only [hasVersionId, hv] at h
        simp only [List.cons_append, findById, hv]
        simp only [if_neg, reduceIte] at h ⊢
        exact ih h

theorem countStage_append (l1 l2 : Store) (st : String) :
    countStage (l1 ++ l2) st = countStage l1 st + countStage l2 st := by
  induction l1 with
  | nil => simp [countStage]
  | cons v vs ih => simp [countStage, ih]; omega

theorem countStage_stripPending (s : Store) :
    countStage (stripPending s) "AWSPENDING" = 0 := by
  induction s with
  | nil => rfl
  | cons v vs ih => simp [stripPending, countStage, hasStage_removeStage_self, ih]

theorem deriveNewData_obj (fields : List (String × JVal)) (t : String) (now : Int) :
    ∃ nd, deriveNewData (JVal.obj fields) t now = Except.ok nd := by
  by_cases hk : hasKey fields "apiVersion"
  · exact ⟨JVal.obj (setKey (setKey fields "lastRotated" (JVal.num now))
      "rotationId" (JVal.str (t.take 8))), by simp [deriveNewData, hk]⟩
  · exact ⟨JVal.obj fields, by simp [deriveNewData, hk]⟩

theorem create_secret_fresh (a t : String) (now : Int) (s : Store) (v : Version)
    (fields : List (String × JVal)) (nd : JVal)
    (hcur : findByStage s "AWSCURRENT" = some v)
    (hobj : v.secretString = JVal.obj fields)
    (hfresh : hasVersionId s t = false)
    (hnd : deriveNewData (JVal.obj fields) t now = Except.ok nd) :
    create_secret none a t now s
      = (Except.ok (), stripPending s ++ [⟨t, ["AWSPENDING"], nd⟩]) := by
  simp [create_secret, get_secret_value_stage, hcur, hobj, hnd, put_secret_value, hfresh]

theorem create_secret_token_exists (a t : String) (now : Int) (s : Store) (v : Version)
    (fields : List (String × JVal))
    (hcur : findByStage s "AWSCURRENT" = some v)
    (hobj : v.secretString = JVal.obj fields)
    (hex : hasVersionId s t = true) :
    create_secret none a t now s = (Except.ok (), s) := by
  obtain ⟨nd, hnd⟩ := deriveNewData_obj fields t now
  simp [create_secret, get_secret_value_stage, hcur, hobj, hnd, put_secret_value, hex]

/-! ### Claim theorems -/

/-- Claim C1: the claim says a second FinishSecret with the same (secret_id,
token), from a state where the token's version already holds AWSCURRENT, is a
success and a no-op.  On the code it is false: `finish_secret` passes the token
under the keyword `ClientRequestToken`, which is not a parameter of the
UpdateSecretVersionStage API (the move target is `MoveToVersionId`), so the
store client rejects the call with a parameter-validation error instead of
succeeding.  This theorem evaluates the code at that state. -/
theorem finish_secret_retry_not_noop :
    finish_secret "arn:aws:secretsmanager:demo" "tok123"
        [⟨"tok123", ["AWSCURRENT"], JVal.obj [("apiVersion", JVal.num 1)]⟩]
      = (Except.error
           (PyErr.paramValidationError "Unknown parameter in input: ClientRequestToken"),
         [⟨"tok123", ["AWSCURRENT"], JVal.obj [("apiVersion", JVal.num 1)]⟩]) := rfl

/-- Claim C2: the claim describes the store state after FinishSecret succeeds
(exactly one AWSCURRENT version, namely the token's).  On the code FinishSecret
never succeeds: for every secret id, token and store state it returns an error
(either "No current version found" from `get_current_version_id`, or the
parameter-validation error from passing `ClientRequestToken` to
UpdateSecretVersionStage) and leaves the store unchanged, so the promotion the
claim describes never happens. -/
theorem finish_secret_never_succeeds (a t : String) (s : Store) :
    (∃ e, (finish_secret a t s).1 = Except.error e) ∧ (finish_secret a t s).2 = s := by
  cases h : get_current_version_id s with
  | error e =>
      refine ⟨⟨e, ?_⟩, ?_⟩ <;> simp [finish_secret, h]
  | ok cur =>
      refine ⟨⟨PyErr.paramValidationError "Unknown parameter in input: ClientRequestToken",
        ?_⟩, ?_⟩ <;> simp [finish_secret, h, update_secret_version_stage]

/-- Claim C4 (confirmed): `test_secret` only reads from the store, so for every
secret id, token and store state the mapping from version id to stage labels is
identical before and after the call, whatever the validation outcome. -/
theorem test_secret_preserves_stage_map (a t : String) (s : Store) :
    stageMap (test_secret a t s).2 = stageMap s := by
  have h2 : (test_secret a t s).2 = s := by
    unfold test_secret
    rcases h : get_secret_value_id_stage s t "AWSPENDING" with e | v
    · simp [h]
    · rcases hv : v.secretString with f | n | w <;> simp [h, hv]
  rw [h2]

/-- Claim C8 (confirmed): `set_secret` is a pure placeholder: it succeeds
unconditionally and performs no operation on the secret store, which is
identical before and after the call. -/
theorem set_secret_noop (a t : String) (s : Store) :
    set_secret a t s = (Except.ok (), s) := rfl

/-- Claim C6 (confirmed): for every step name other than the four recognised
ones, the handler raises `ValueError("Invalid step: ...")` (the spec's
InvalidStepError) without dispatching to any step handler, and the store is
untouched. -/
theorem handler_invalid_step (fault : Option String) (a t step : String)
    (now : Int) (s : Store)
    (h1 : step ≠ "createSecret") (h2 : step ≠ "setSecret")
    (h3 : step ≠ "testSecret") (h4 : step ≠ "finishSecret") :
    handler fault a t step now s
      = (Except.error (PyErr.valueError ("Invalid step: " ++ step)), s) := by
  simp [handler, h1, h2, h3, h4]

/-- Witness for C6: the unknown step name "RotateSecret" is rejected. -/
theorem handler_invalid_step_witness :
    handler none "arn:aws:secretsmanager:demo" "tok123" "RotateSecret" 0 []
      = (Except.error (PyErr.valueError ("Invalid step: " ++ "RotateSecret")), []) :=
  handler_invalid_step none "arn:aws:secretsmanager:demo" "tok123" "RotateSecret" 0 []
    (by decide) (by decide) (by decide) (by decide)

/-- Claim C5 (confirmed): when the version for `token` carries AWSPENDING and
its payload is a JSON object missing the required key 'apiVersion',
`test_secret` raises `ValueError("Required field 'apiVersion' missing from
secret")` (the spec's ValidationError) and in the post-call store the token's
version is unchanged and still carries AWSPENDING. -/
theorem test_secret_missing_required_field (a t : String) (s : Store) (v : Version)
    (fields : List (String × JVal))
    (hfind : findById s t = some v)
    (hpend : hasStage v.stages "AWSPENDING" = true)
    (hobj : v.secretString = JVal.obj fields)
    (hmiss : hasKey fields "apiVersion" = false) :
    (test_secret a t s).1
        = Except.error (PyErr.valueError "Required field 'apiVersion' missing from secret")
      ∧ findById (test_secret a t s).2 t = some v
      ∧ hasStage v.stages "AWSPENDING" = true := by
  have hmsg : "Required field '" ++ "apiVersion" ++ "' missing from secret"
      = "Required field 'apiVersion' missing from secret" := rfl
  have heq : test_secret a t s
      = (Except.error (PyErr.valueError "Required field 'apiVersion' missing from secret"), s) := by
    simp [test_secret, get_secret_value_id_stage, hfind, hpend, hobj,
      checkRequired, required_fields, hmiss, hmsg]
  rw [heq]
  exact ⟨rfl, hfind, hpend⟩

/-- Witness for C5: a pending payload with only a 'host' key fails validation
and stays pending. -/
theorem test_secret_missing_required_field_witness :
    (test_secret "arn:aws:secretsmanager:demo" "tokABC"
        [⟨"tokABC", ["AWSPENDING"], JVal.obj [("host", JVal.str "db")]⟩]).1
        = Except.error (PyErr.valueError "Required field 'apiVersion' missing from secret")
      ∧ findById (test_secret "arn:aws:secretsmanager:demo" "tokABC"
          [⟨"tokABC", ["AWSPENDING"], JVal.obj [("host", JVal.str "db")]⟩]).2 "tokABC"
        = some ⟨"tokABC", ["AWSPENDING"], JVal.obj [("host", JVal.str "db")]⟩
      ∧ hasStage ["AWSPENDING"] "AWSPENDING" = true :=
  test_secret_missing_required_field "arn:aws:secretsmanager:demo" "tokABC"
    [⟨"tokABC", ["AWSPENDING"], JVal.obj [("host", JVal.str "db")]⟩]
    ⟨"tokABC", ["AWSPENDING"], JVal.obj [("host", JVal.str "db")]⟩
    [("host", JVal.str "db")] rfl rfl rfl rfl

/-- Claim C7 (confirmed): when the store fails the put of the new version with
any error code other than "ResourceExistsException", `create_secret` propagates
that store error (the spec's CreateFailedError) instead of swallowing it, and
the store is unchanged. -/
theorem create_secret_propagates_store_error (code a t : String) (now : Int)
    (s : Store) (v : Version) (fields : List (String × JVal))
    (hcur : findByStage s "AWSCURRENT" = some v)
    (hobj : v.secretString = JVal.obj fields)
    (hcode : code ≠ "ResourceExistsException") :
    create_secret (some code) a t now s
      = (Except.error (PyErr.clientError code), s) := by
  by_cases hk : hasKey fields "apiVersion" <;>
    simp [create_secret, get_secret_value_stage, hcur, deriveNewData, hobj, hk,
      put_secret_value, hcode]

/-- Witness for C7: a throttling error from the store surfaces unchanged. -/
theorem create_secret_propagates_store_error_witness :
    create_secret (some "ThrottlingException") "arn:aws:secretsmanager:demo" "tok123" 1700000000
        [⟨"v0", ["AWSCURRENT"], JVal.obj [("apiVersion", JVal.num 1)]⟩]
      = (Except.error (PyErr.clientError "ThrottlingException"),
         [⟨"v0", ["AWSCURRENT"], JVal.obj [("apiVersion", JVal.num 1)]⟩]) :=
  create_secret_propagates_store_error "ThrottlingException" "arn:aws:secretsmanager:demo"
    "tok123" 1700000000 [⟨"v0", ["AWSCURRENT"], JVal.obj [("apiVersion", JVal.num 1)]⟩]
    ⟨"v0", ["AWSCURRENT"], JVal.obj [("apiVersion", JVal.num 1)]⟩
    [("apiVersion", JVal.num 1)] rfl rfl (by decide)

/-- Claim C3 (confirmed): invoking CreateSecret twice with the same token from
a state with a current version and no version yet for the token: the first
call creates the pending version for the token, the second call succeeds while
returning the store unchanged (the store's "resource exists" condition is
swallowed), and exactly one version carries AWSPENDING — the token's. -/
theorem create_secret_idempotent (a t : String) (now1 now2 : Int) (s : Store)
    (v : Version) (fields : List (String × JVal))
    (hcur : findByStage s "AWSCURRENT" = some v)
    (hobj : v.secretString = JVal.obj fields)
    (hfresh : hasVersionId s t = false) :
    ∃ s1 : Store,
      create_secret none a t now1 s = (Except.ok (), s1) ∧
      create_secret none a t now2 s1 = (Except.ok (), s1) ∧
      countStage s1 "AWSPENDING" = 1 ∧
      (∃ p, findById s1 t = some p ∧ hasStage p.stages "AWSPENDING" = true) := by
  obtain ⟨nd, hnd⟩ := deriveNewData_obj fields t now1
  refine ⟨stripPending s ++ [⟨t, ["AWSPENDING"], nd⟩], ?_, ?_, ?_, ?_⟩
  · exact create_secret_fresh a t now1 s v fields nd hcur hobj hfresh hnd
  · have hcur1 : findByStage (stripPending s ++ [⟨t, ["AWSPENDING"], nd⟩]) "AWSCURRENT"
        = some { v with stages := removeStage v.stages "AWSPENDING" } := by
      apply findByStage_append_left
      rw [findByStage_stripPending, hcur]
      rfl
    have hex1 : hasVersionId (stripPending s ++ [⟨t, ["AWSPENDING"], nd⟩]) t = true := by
      rw [hasVersionId_append]
      simp [hasVersionId]
    exact create_secret_token_exists a t now2 _ _ fields hcur1 (by simpa using hobj) hex1
  · rw [countStage_append, countStage_stripPending]
    simp [countStage, hasStage]
  · refine ⟨⟨t, ["AWSPENDING"], nd⟩, ?_, by simp [hasStage]⟩
    rw [findById_append_right _ _ _ (by rw [hasVersionId_stripPending]; exact hfresh)]
    simp [findById]

/-- Witness for C3: two retried createSecret calls with token "tok123" against
a store holding only the current version. -/
theorem create_secret_idempotent_witness :
    ∃ s1 : Store,
      create_secret none "arn:aws:secretsmanager:demo" "tok123" 1111
          [⟨"v0", ["AWSCURRENT"], JVal.obj [("apiVersion", JVal.num 1)]⟩]
        = (Except.ok (), s1) ∧
      create_secret none "arn:aws:secretsmanager:demo" "tok123" 2222 s1
        = (Except.ok (), s1) ∧
      countStage s1 "AWSPENDING" = 1 ∧
      (∃ p, findById s1 "tok123" = some p ∧ hasStage p.stages "AWSPENDING" = true) :=
  create_secret_idempotent "arn:aws:secretsmanager:demo" "tok123" 1111 2222
    [⟨"v0", ["AWSCURRENT"], JVal.obj [("apiVersion", JVal.num 1)]⟩]
    ⟨"v0", ["AWSCURRENT"], JVal.obj [("apiVersion", JVal.num 1)]⟩
    [("apiVersion", JVal.num 1)] rfl rfl rfl

/-- Claim C9 (confirmed): when the current payload is an object containing the
key 'apiVersion' and the token has no version yet, a first createSecret stores
a new AWSPENDING version for the token whose payload is the current payload
with 'lastRotated' set to the integer timestamp `int(time.time())` and
'rotationId' set to `token[:8]`. -/
theorem create_secret_rotated_payload (a t : String) (now : Int) (s : Store)
    (v : Version) (fields : List (String × JVal))
    (hcur : findByStage s "AWSCURRENT" = some v)
    (hobj : v.secretString = JVal.obj fields)
    (hapi : hasKey fields "apiVersion" = true)
    (hfresh : hasVersionId s t = false) :
    ∃ s1 : Store,
      create_secret none a t now s = (Except.ok (), s1) ∧
      findById s1 t = some ⟨t, ["AWSPENDING"],
        JVal.obj (setKey (setKey fields "lastRotated" (JVal.num now))
          "rotationId" (JVal.str (t.take 8)))⟩ := by
  have hnd : deriveNewData (JVal.obj fields) t now
      = Except.ok (JVal.obj (setKey (setKey fields "lastRotated" (JVal.num now))
          "rotationId" (JVal.str (t.take 8)))) := by
    simp [deriveNewData, hapi]
  refine ⟨_, create_secret_fresh a t now s v fields _ hcur hobj hfresh hnd, ?_⟩
  rw [findById_append_right _ _ _ (by rw [hasVersionId_stripPending]; exact hfresh)]
  simp [findById]

/-- Witness for C9: current payload `("apiVersion", 1)`, token "tok123456",
timestamp 1700000000: the pending payload gains lastRotated 1700000000 and
rotationId "tok12345" (the token's first 8 characters). -/
theorem create_secret_rotated_payload_witness :
    ∃ s1 : Store,
      create_secret none "arn:aws:secretsmanager:demo" "tok123456" 1700000000
          [⟨"v0", ["AWSCURRENT"], JVal.obj [("apiVersion", JVal.num 1)]⟩]
        = (Except.ok (), s1) ∧
      findById s1 "tok123456" = some ⟨"tok123456", ["AWSPENDING"],
        JVal.obj [("apiVersion", JVal.num 1), ("lastRotated", JVal.num 1700000000),
          ("rotationId", JVal.str "tok12345")]⟩ :=
  create_secret_rotated_payload "arn:aws:secretsmanager:demo" "tok123456" 1700000000
    [⟨"v0", ["AWSCURRENT"], JVal.obj [("apiVersion", JVal.num 1)]⟩]
    ⟨"v0", ["AWSCURRENT"], JVal.obj [("apiVersion", JVal.num 1)]⟩
    [("apiVersion", JVal.num 1)] rfl rfl rfl rfl

/-- Claim C10 (confirmed): when the current payload is an object without the
key 'apiVersion' and the token has no version yet, a first createSecret stores
a new AWSPENDING version for the token whose payload is exactly the current
payload — no field added or changed. -/
theorem create_secret_payload_unchanged (a t : String) (now : Int) (s : Store)
    (v : Version) (fields : List (String × JVal))
    (hcur : findByStage s "AWSCURRENT" = some v)
    (hobj : v.secretString = JVal.obj fields)
    (hnoapi : hasKey fields "apiVersion" = false)
    (hfresh : hasVersionId s t = false) :
    ∃ s1 : Store,
      create_secret none a t now s = (Except.ok (), s1) ∧
      findById s1 t = some ⟨t, ["AWSPENDING"], JVal.obj fields⟩ ∧
      v.secretString = JVal.obj fields := by
  have hnd : deriveNewData (JVal.obj fields) t now = Except.ok (JVal.obj fields) := by
    simp [deriveNewData, hnoapi]
  refine ⟨_, create_secret_fresh a t now s v fields _ hcur hobj hfresh hnd, ?_, hobj⟩
  rw [findById_append_right _ _ _ (by rw [hasVersionId_stripPending]; exact hfresh)]
  simp [findById]

/-- Witness for C10: a current payload with keys 'host' and 'port' but no
'apiVersion' is copied verbatim into the pending version. -/
theorem create_secret_payload_unchanged_witness :
    ∃ s1 : Store,
      create_secret none "arn:aws:secretsmanager:demo" "tok123" 1700000000
          [⟨"v0", ["AWSCURRENT"], JVal.obj [("host", JVal.str "db"), ("port", JVal.num 5432)]⟩]
        = (Except.ok (), s1) ∧
      findById s1 "tok123" = some ⟨"tok123", ["AWSPENDING"],
        JVal.obj [("host", JVal.str "db"), ("port", JVal.num 5432)]⟩ ∧
      (Version.mk "v0" ["AWSCURRENT"]
          (JVal.obj [("host", JVal.str "db"), ("port", JVal.num 5432)])).secretString
        = JVal.obj [("host", JVal.str "db"), ("port", JVal.num 5432)] :=
  create_secret_payload_unchanged "arn:aws:secretsmanager:demo" "tok123" 1700000000
    [⟨"v0", ["AWSCURRENT"], JVal.obj [("host", JVal.str "db"), ("port", JVal.num 5432)]⟩]
    ⟨"v0", ["AWSCURRENT"], JVal.obj [("host", JVal.str "db"), ("port", JVal.num 5432)]⟩
    [("host", JVal.str "db"), ("port", JVal.num 5432)] rfl rfl rfl rfl
